import Mathlib

/-
Shallow embedding of the Cloud Debugger attachment orchestrator
(googleclouddebugger/__init__.py): the flag parser of _DebuggerMain,
the initialization sequence of _StartDebugger, the programmatic entry
point AttachDebugger, and the process hand-off that resets the
__main__ namespace before executing the target program.
-/

set_option autoImplicit false

deriving instance DecidableEq for Except

namespace CloudDebugger

/-- Configuration values: the debugger configuration carries strings
(from the CLI parser, which only produces strings) or booleans (the
boolean form accepted by the programmatic entry point and named by the
data model, which restricts values to strings and booleans). -/
inductive PyVal where
  | str : String → PyVal
  | bool : Bool → PyVal
  deriving DecidableEq

/-- A Python dict with string keys, modelling the _flags mapping. -/
abbrev Config := List (String × PyVal)

/-- Values found in the top-level __main__.__dict__ namespace. -/
inductive PyObj where
  | strVal : String → PyObj
  | builtinsObj : PyObj
  | arbitrary : Nat → PyObj
  deriving DecidableEq

/-- The __main__.__dict__ namespace of the process. -/
abbrev MainDict := List (String × PyObj)

/-- Exceptions the orchestrator can raise: RuntimeError from a second
AttachDebugger call, ValueError from tuple unpacking of a flag token,
IndexError from reading index 0 of an exhausted argv list, and
KeyError from a missing configuration key. -/
inductive PyError where
  | alreadyAttached : PyError
  | malformedFlag : String → PyError
  | indexError : PyError
  | keyError : String → PyError
  deriving DecidableEq

/-- Dictionary lookup, as d.get(key) / d[key] returning none when absent. -/
def dictGet {α : Type} : List (String × α) → String → Option α
  | [], _ => none
  | (k, v) :: rest, key => if k = key then some v else dictGet rest key

/-- Dictionary store d[key] = val: replace the binding when the key is
present, append it otherwise. -/
def dictSet {α : Type} : List (String × α) → String → α → List (String × α)
  | [], key, val => [(key, val)]
  | (k, v) :: rest, key, val =>
    if k = key then (k, val) :: rest else (k, v) :: dictSet rest key val

/-- Python str.strip(c): remove the character c from both ends of the
string (this is what arg.strip(chr) does; it is not limited to the
leading end). -/
def pyStrip (s : String) (c : Char) : String :=
  String.mk (((s.toList.dropWhile (fun x => x = c)).reverse.dropWhile
    (fun x => x = c)).reverse)

/-- Helper for pySplitLim, working on character lists; n counts the
splits still allowed, acc holds the current piece reversed. -/
def pySplitChars (sep : Char) : List Char → Nat → List Char → List (List Char)
  | [], _, acc => [acc.reverse]
  | c :: cs, n, acc =>
    if c = sep then
      match n with
      | 0 => pySplitChars sep cs 0 (c :: acc)
      | m + 1 => acc.reverse :: pySplitChars sep cs m []
    else pySplitChars sep cs n (c :: acc)

/-- Python s.split(sep, maxsplit): split on sep at most maxsplit
times, producing at most maxsplit + 1 pieces. -/
def pySplitLim (s : String) (sep : Char) (maxsplit : Nat) : List String :=
  (pySplitChars sep s.toList maxsplit []).map (fun cs => String.mk cs)

/-- The flag-parsing loop of _DebuggerMain:
while sys.argv[0] holds, pop the token; stop at the separator token;
otherwise strip dashes, split on the equals sign with maxsplit 2, and
unpack into (name, value). Returns the loop outcome (remaining argv on
normal exit, or the raised exception) together with the _flags dict
accumulated so far. Reading argv[0] of an empty list is IndexError; a
falsy (empty) token ends the loop without being consumed; a split that
does not produce exactly two pieces makes the tuple unpacking raise
ValueError, modelled as malformedFlag. -/
def parseFlags : List String → Config → Except PyError (List String) × Config
  | [], fl => (Except.error PyError.indexError, fl)
  | arg :: rest, fl =>
    if arg = "" then (Except.ok (arg :: rest), fl)
    else if arg = "--" then (Except.ok rest, fl)
    else
      match pySplitLim (pyStrip arg '-') '=' 2 with
      | [name, value] => parseFlags rest (dictSet fl name (PyVal.str value))
      | _ => (Except.error (PyError.malformedFlag arg), fl)

/-- The parsing phase of _DebuggerMain viewed as the Configuration
Parser: delete argv[0], then run the flag loop on the rest, yielding
the configuration and the untouched remainder of argv. -/
def parseArgv (argv : List String) : Except PyError (Config × List String) :=
  match argv with
  | [] => Except.error PyError.indexError
  | _ :: rest =>
    match parseFlags rest [] with
    | (Except.ok remainder, fl) => Except.ok (fl, remainder)
    | (Except.error e, _) => Except.error e

/-- The truthiness test of _StartDebugger:
_flags.get(enable_service_account_auth) in (the string 1, the string
true, the boolean True). Over string and boolean values this holds
exactly for those three forms; an absent key gives None, which matches
none of them. -/
def serviceAccountAuthEnabled (fl : Config) : Bool :=
  match dictGet fl "enable_service_account_auth" with
  | some (PyVal.str s) => s == "1" || s == "true"
  | some (PyVal.bool b) => b
  | none => false

/-- The authentication strategy variant activated on the hub client. -/
inductive AuthStrategy where
  | serviceAccount : PyVal → PyVal → PyVal → PyVal → AuthStrategy
  | gce : AuthStrategy
  deriving DecidableEq

/-- Observable side effects of _StartDebugger on its collaborators, in
the order the source performs them. -/
inductive Effect where
  | cdbgNativeInitModule : Config → Effect
  | constructHubClient : Effect
  | constructBreakpointsManager : Effect
  | appendPrettyPrinter : Effect
  | wireOnActiveBreakpointsChanged : Effect
  | wireOnIdle : Effect
  | enableAuth : AuthStrategy → Effect
  | initDebuggeeLabels : Config → Effect
  | start : Effect
  deriving DecidableEq

/-- Resolution of the authentication strategy in _StartDebugger: when
the enable flag is truthy, look up the four configuration keys (in the
left-to-right order the call evaluates its arguments; a missing key
raises KeyError) and activate the service-account strategy; otherwise
activate the ambient GCE strategy. -/
def resolveAuth (fl : Config) : Except PyError AuthStrategy :=
  if serviceAccountAuthEnabled fl then
    match dictGet fl "project_id" with
    | none => Except.error (PyError.keyError "project_id")
    | some pid =>
      match dictGet fl "project_number" with
      | none => Except.error (PyError.keyError "project_number")
      | some pnum =>
        match dictGet fl "service_account_email" with
        | none => Except.error (PyError.keyError "service_account_email")
        | some em =>
          match dictGet fl "service_account_p12_file" with
          | none => Except.error (PyError.keyError "service_account_p12_file")
          | some p12 => Except.ok (AuthStrategy.serviceAccount pid pnum em p12)
  else Except.ok AuthStrategy.gce

/-- The effects of _StartDebugger that precede the authentication
branch: native gateway initialization with the full configuration, hub
client construction, breakpoints manager construction, the pretty
printer append, and the two callback-slot assignments. -/
def baseTrace (fl : Config) : List Effect :=
  [Effect.cdbgNativeInitModule fl, Effect.constructHubClient,
   Effect.constructBreakpointsManager, Effect.appendPrettyPrinter,
   Effect.wireOnActiveBreakpointsChanged, Effect.wireOnIdle]

/-- _StartDebugger: performs the base effects, resolves and activates
the authentication strategy, applies the debuggee labels, and starts
the hub client; a KeyError in the authentication branch aborts before
the activation, label, and start effects. Returns the outcome and the
emitted effect trace. -/
def StartDebugger (fl : Config) : Except PyError Unit × List Effect :=
  match resolveAuth fl with
  | Except.error e => (Except.error e, baseTrace fl)
  | Except.ok ss =>
    (Except.ok (),
     baseTrace fl ++ [Effect.enableAuth ss, Effect.initDebuggeeLabels fl,
                      Effect.start])

/-- Emptying of __main__.__dict__ by dict.clear(). -/
def nsClear (d : MainDict) : MainDict :=
  match d with
  | _ => []

/-- dict.update(kvs): store every pair of kvs in order. -/
def nsUpdate (d : MainDict) (kvs : List (String × PyObj)) : MainDict :=
  kvs.foldl (fun m kv => dictSet m kv.1 kv.2) d

/-- The namespace reset of _DebuggerMain: __main__.__dict__.clear()
followed by update with the fresh minimal identity: __name__ bound to
the main-program sentinel, __file__ bound to the target path, and
__builtins__ preserved. -/
def resetMainDict (d : MainDict) (appPath : String) : MainDict :=
  nsUpdate (nsClear d)
    [("__name__", PyObj.strVal "__main__"),
     ("__file__", PyObj.strVal appPath),
     ("__builtins__", PyObj.builtinsObj)]

/-- The exec of the target program: the global scope, the local scope,
and the target path handed to execfile. -/
structure ExecCall where
  globalsNs : MainDict
  localsNs : MainDict
  target : String
  deriving DecidableEq

/-- The process hand-off: reset the namespace for the target path and
execute the target with the one resulting dict used as both the global
and the local scope. -/
def Handoff (d : MainDict) (appPath : String) : ExecCall :=
  ExecCall.mk (resetMainDict d appPath) (resetMainDict d appPath) appPath

/-- Process-wide mutable state read and written by the entry points:
the _flags module global (None until an attach stores a configuration),
the accumulated collaborator effect trace, and __main__.__dict__. -/
structure ProcState where
  flags : Option Config
  trace : List Effect
  mainDict : MainDict
  deriving DecidableEq

/-- _DebuggerMain: delete argv[0], run the flag loop (storing the
accumulated dict into the _flags global even when the loop raises),
call _StartDebugger, then read the target path from the remaining argv
and perform the hand-off. There is no already-attached check in this
entry point. -/
def DebuggerMain (argv : List String) (s : ProcState) :
    Except PyError ExecCall × ProcState :=
  match argv with
  | [] => (Except.error PyError.indexError, s)
  | _ :: rest =>
    match parseFlags rest [] with
    | (Except.error e, fl) =>
      (Except.error e, ProcState.mk (some fl) s.trace s.mainDict)
    | (Except.ok remainder, fl) =>
      match StartDebugger fl with
      | (Except.error e, tr) =>
        (Except.error e, ProcState.mk (some fl) (s.trace ++ tr) s.mainDict)
      | (Except.ok _, tr) =>
        match remainder with
        | [] =>
          (Except.error PyError.indexError,
           ProcState.mk (some fl) (s.trace ++ tr) s.mainDict)
        | appPath :: _ =>
          (Except.ok (Handoff s.mainDict appPath),
           ProcState.mk (some fl) (s.trace ++ tr)
             (Handoff s.mainDict appPath).globalsNs)

/-- AttachDebugger: raise RuntimeError when _flags is already set;
otherwise store the keyword mapping into _flags first and only then
call _StartDebugger, so the configuration is recorded even when the
startup raises partway. -/
def AttachDebugger (kwargs : Config) (s : ProcState) :
    Except PyError Unit × ProcState :=
  match s.flags with
  | some _ => (Except.error PyError.alreadyAttached, s)
  | none =>
    match StartDebugger kwargs with
    | (Except.ok _, tr) =>
      (Except.ok (), ProcState.mk (some kwargs) (s.trace ++ tr) s.mainDict)
    | (Except.error e, tr) =>
      (Except.error e, ProcState.mk (some kwargs) (s.trace ++ tr) s.mainDict)

/-- One parser step over an already-consumed well-formed flag token,
used to state what the loop accumulates. -/
def flagStep (fl : Config) (t : String) : Config :=
  match pySplitLim (pyStrip t '-') '=' 2 with
  | [n, v] => dictSet fl n (PyVal.str v)
  | _ => fl

/-- The configuration accumulated by consuming the token list pre. -/
def consumeFlags (fl : Config) (pre : List String) : Config :=
  pre.foldl flagStep fl

/-- The complete nine-element effect trace of a successful
_StartDebugger run with authentication strategy ss. -/
def fullTrace (fl : Config) (ss : AuthStrategy) : List Effect :=
  baseTrace fl ++
    [Effect.enableAuth ss, Effect.initDebuggeeLabels fl, Effect.start]

/-- The authentication strategy whose activation effect appears in the
trace of _StartDebugger, when one does. -/
def authActivated (fl : Config) : Option AuthStrategy :=
  (StartDebugger fl).2.findSome? (fun e =>
    match e with
    | Effect.enableAuth ss => some ss
    | _ => none)

/-- A sample __main__.__dict__ holding orchestrator top-level
bindings before the hand-off resets it. -/
def initialMainDict : MainDict :=
  [("AttachDebugger", PyObj.arbitrary 0), ("_flags", PyObj.arbitrary 1)]

/-- The process state at interpreter start: _flags is None, no
collaborator has been touched. -/
def initialState : ProcState :=
  ProcState.mk none [] initialMainDict

/-- A process state in which an attach has already stored a
configuration. -/
def attachedState : ProcState :=
  ProcState.mk (some [("a", PyVal.str "1")]) [] initialMainDict

/-- A keyword mapping that makes _StartDebugger raise partway: the
service-account flag is truthy but project_id is absent, so the
authentication branch raises KeyError. -/
def saIncompleteFlags : Config :=
  [("enable_service_account_auth", PyVal.str "1")]

/-- A complete service-account configuration. -/
def saFlags : Config :=
  [("enable_service_account_auth", PyVal.str "1"),
   ("project_id", PyVal.str "p"),
   ("project_number", PyVal.str "7"),
   ("service_account_email", PyVal.str "e"),
   ("service_account_p12_file", PyVal.str "f")]

end CloudDebugger

namespace CloudDebugger

/-- The flag loop consumes a block of nonempty, non-separator,
well-formed flag tokens and then continues on the remaining tokens
with the accumulated configuration. -/
theorem parseFlags_consume_append :
    ∀ (pre rest : List String) (fl : Config),
      (∀ t ∈ pre, t ≠ "" ∧ t ≠ "--" ∧
        (pySplitLim (pyStrip t '-') '=' 2).length = 2) →
      parseFlags (pre ++ rest) fl = parseFlags rest (consumeFlags fl pre)
  | [], _, _, _ => rfl
  | t :: ts, rest, fl, h => by
    obtain ⟨h1, h2, h3⟩ := h t (List.mem_cons_self t ts)
    have hts : ∀ u ∈ ts, u ≠ "" ∧ u ≠ "--" ∧
        (pySplitLim (pyStrip u '-') '=' 2).length = 2 :=
      fun u hu => h u (List.mem_cons_of_mem t hu)
    rcases hsp : pySplitLim (pyStrip t '-') '=' 2 with _ | ⟨n, _ | ⟨v, _ | ⟨w, tl⟩⟩⟩
    · rw [hsp] at h3; simp at h3
    · rw [hsp] at h3; simp at h3
    · have hstep : flagStep fl t = dictSet fl n (PyVal.str v) := by
        unfold flagStep; rw [hsp]
      have hcons : consumeFlags fl (t :: ts) =
          consumeFlags (dictSet fl n (PyVal.str v)) ts := by
        show consumeFlags (flagStep fl t) ts = _
        rw [hstep]
      show parseFlags (t :: (ts ++ rest)) fl = _
      simp only [parseFlags, if_neg h1, if_neg h2, hsp]
      rw [hcons]
      exact parseFlags_consume_append ts rest (dictSet fl n (PyVal.str v)) hts
    · rw [hsp] at h3; simp at h3

end CloudDebugger

namespace CloudDebugger

/-- C1 counterexample: after a successful programmatic attach, a
second attach through the CLI entry point _DebuggerMain does not fail
with AlreadyAttached (it has no attached check) and it overwrites the
stored configuration of the first call. -/
theorem C1_counterexampleCliSecondAttach :
    (AttachDebugger [("a", PyVal.str "1")] initialState).1 = Except.ok () ∧
    (DebuggerMain ["cdbg", "--b=2", "--", "app.py"]
        (AttachDebugger [("a", PyVal.str "1")] initialState).2).1 ≠
      Except.error PyError.alreadyAttached ∧
    (DebuggerMain ["cdbg", "--b=2", "--", "app.py"]
        (AttachDebugger [("a", PyVal.str "1")] initialState).2).2.flags ≠
      (AttachDebugger [("a", PyVal.str "1")] initialState).2.flags := by
  decide

/-- C1 amended: a second attach through the programmatic entry point
AttachDebugger fails with AlreadyAttached and leaves the process state
unmodified, whichever entry mode performed the first attach; the CLI
entry point _DebuggerMain performs no such check. -/
theorem C1_secondProgrammaticAttachFails (kwargs : Config) (s : ProcState)
    (h : s.flags ≠ none) :
    AttachDebugger kwargs s = (Except.error PyError.alreadyAttached, s) := by
  rcases s with ⟨fl, tr, md⟩
  cases fl with
  | none => exact absurd rfl h
  | some fl0 => rfl

/-- C1 witness: a concrete attached state makes a programmatic attach
fail with AlreadyAttached and leaves the state unchanged. -/
theorem C1_witnessInstance :
    AttachDebugger [("b", PyVal.str "2")] attachedState =
      (Except.error PyError.alreadyAttached, attachedState) :=
  C1_secondProgrammaticAttachFails [("b", PyVal.str "2")] attachedState
    (by decide)

/-- C2: the authentication strategy is a pure function of the
enable_service_account_auth flag: the truthiness test holds exactly
for the string 1, the string true, and the boolean true; when it
fails (including key absence) the ambient GCE strategy is activated;
when it holds and the four service-account keys are present, the
service-account strategy is activated with those four values. -/
theorem C2_authStrategySelection (fl : Config) (pid pnum em p12 : PyVal) :
    (serviceAccountAuthEnabled fl = true ↔
      (dictGet fl "enable_service_account_auth" = some (PyVal.str "1") ∨
       dictGet fl "enable_service_account_auth" = some (PyVal.str "true") ∨
       dictGet fl "enable_service_account_auth" = some (PyVal.bool true))) ∧
    (serviceAccountAuthEnabled fl = false →
      authActivated fl = some AuthStrategy.gce) ∧
    (serviceAccountAuthEnabled fl = true →
      dictGet fl "project_id" = some pid →
      dictGet fl "project_number" = some pnum →
      dictGet fl "service_account_email" = some em →
      dictGet fl "service_account_p12_file" = some p12 →
      authActivated fl = some (AuthStrategy.serviceAccount pid pnum em p12)) := by
  refine ⟨?_, ?_, ?_⟩
  · rcases hv : dictGet fl "enable_service_account_auth" with _ | v
    · simp [serviceAccountAuthEnabled, hv]
    · cases v with
      | str sv => simp [serviceAccountAuthEnabled, hv]
      | bool b => cases b <;> simp [serviceAccountAuthEnabled, hv]
  · intro hF
    simp [authActivated, StartDebugger, resolveAuth, hF, baseTrace,
      List.findSome?]
  · intro hT h1 h2 h3 h4
    simp [authActivated, StartDebugger, resolveAuth, hT, h1, h2, h3, h4,
      baseTrace, List.findSome?]

/-- C2 witness: a complete service-account configuration with the flag
set to the string 1 activates the service-account strategy with its
four values. -/
theorem C2_witnessInstance :
    serviceAccountAuthEnabled saFlags = true ∧
    authActivated saFlags = some (AuthStrategy.serviceAccount
      (PyVal.str "p") (PyVal.str "7") (PyVal.str "e") (PyVal.str "f")) :=
  ⟨by decide,
   (C2_authStrategySelection saFlags (PyVal.str "p") (PyVal.str "7")
      (PyVal.str "e") (PyVal.str "f")).2.2 (by decide) (by decide)
     (by decide) (by decide) (by decide)⟩

end CloudDebugger

namespace CloudDebugger

/-- C3 counterexample: the stream cdbg, empty token, separator,
app.py contains exactly one separator token, yet the parser stops at
the falsy empty token, so the remainder is the empty token, the
separator, and app.py, not the tokens after the separator. -/
theorem C3_counterexampleEmptyToken :
    parseArgv ["cdbg", "", "--", "app.py"] =
      Except.ok ([], ["", "--", "app.py"]) ∧
    (["", "--", "app.py"] : List String) ≠ ["app.py"] := by
  decide

/-- C3 amended: for every CLI token stream whose tokens before the
single separator are all nonempty, non-separator, well-formed flag
tokens, the parser discards token 0, yields exactly the flags
accumulated from the tokens before the separator, and leaves a
remainder equal to the tokens after the separator. -/
theorem C3_flagsAndRemainder (t0 : String) (pre post : List String)
    (h : ∀ t ∈ pre, t ≠ "" ∧ t ≠ "--" ∧
      (pySplitLim (pyStrip t '-') '=' 2).length = 2) :
    parseArgv (t0 :: pre ++ "--" :: post) =
      Except.ok (consumeFlags [] pre, post) := by
  have hp : parseFlags (pre ++ "--" :: post) [] =
      (Except.ok post, consumeFlags [] pre) := by
    rw [parseFlags_consume_append pre ("--" :: post) [] h]
    rfl
  simp [parseArgv, hp]

/-- C3 witness: the concrete example of the claim yields exactly the
flags a mapped to 1 and b mapped to true, and remainder app.py, x. -/
theorem C3_witnessSpecExample :
    parseArgv ["cdbg", "--a=1", "--b=true", "--", "app.py", "x"] =
      Except.ok ([("a", PyVal.str "1"), ("b", PyVal.str "true")],
        ["app.py", "x"]) := by
  have h := C3_flagsAndRemainder "cdbg" ["--a=1", "--b=true"]
    ["app.py", "x"] (by decide)
  exact h.trans (by decide)

/-- C4: evaluating the parser at a token stream with no separator
token shows the loop reading index 0 of the exhausted argv list and
raising IndexError, both at the parser level and through
_DebuggerMain; the hand-off step is never reached with an empty
remainder. -/
theorem C4_missingSeparatorIndexError :
    parseArgv ["cdbg", "--a=1"] = Except.error PyError.indexError ∧
    (DebuggerMain ["cdbg", "--a=1"] initialState).1 =
      Except.error PyError.indexError := by
  decide

/-- C5: the source splits a consumed flag token with maxsplit 2, so
the token a=b=c (after dash stripping) yields the three pieces a, b,
c and the two-variable tuple unpacking raises ValueError, instead of
binding flag a to the string b=c as the claim states. -/
theorem C5_maxsplitUnpackError :
    pySplitLim (pyStrip "--a=b=c" '-') '=' 2 = ["a", "b", "c"] ∧
    parseArgv ["cdbg", "--a=b=c", "--", "app.py"] =
      Except.error (PyError.malformedFlag "--a=b=c") := by
  decide

/-- C6: when the first consumed token before the separator is nonempty
and does not split into exactly a name and a value, _DebuggerMain
raises MalformedFlag and the resulting state carries an unchanged
effect trace: no collaborator is touched, in particular the native
gateway is never initialized. -/
theorem C6_malformedFirstFlag (t0 t : String) (rest : List String)
    (s : ProcState) (h1 : t ≠ "") (h2 : t ≠ "--")
    (h3 : (pySplitLim (pyStrip t '-') '=' 2).length ≠ 2) :
    DebuggerMain (t0 :: t :: rest) s =
      (Except.error (PyError.malformedFlag t),
       ProcState.mk (some []) s.trace s.mainDict) := by
  have hp : parseFlags (t :: rest) [] =
      (Except.error (PyError.malformedFlag t), []) := by
    rcases hsp : pySplitLim (pyStrip t '-') '=' 2 with _ | ⟨n, _ | ⟨v, _ | ⟨w, tl⟩⟩⟩
    · simp only [parseFlags, if_neg h1, if_neg h2, hsp]
    · simp only [parseFlags, if_neg h1, if_neg h2, hsp]
    · rw [hsp] at h3; simp at h3
    · simp only [parseFlags, if_neg h1, if_neg h2, hsp]
  simp [DebuggerMain, hp]

/-- C6 witness: the token stream cdbg, a dashed token without an
equals sign, separator, x fails with MalformedFlag and leaves the
effect trace empty. -/
theorem C6_witnessInstance :
    DebuggerMain ["cdbg", "--bad", "--", "x"] initialState =
      (Except.error (PyError.malformedFlag "--bad"),
       ProcState.mk (some []) initialState.trace initialState.mainDict) :=
  C6_malformedFirstFlag "cdbg" "--bad" ["--", "x"] initialState
    (by decide) (by decide) (by decide)

end CloudDebugger

namespace CloudDebugger

/-- C7: the effect trace of every _StartDebugger run is an initial
segment of the fully ordered trace: gateway initialization with the
full configuration, hub client construction, breakpoints manager
construction, the pretty-printer append, the two callback wirings,
the authentication activation, the debuggee labels, and Start last;
a successful run emits exactly that ordered trace, so Start is never
invoked before all earlier steps are complete. -/
theorem C7_strictEffectOrder (fl : Config) :
    (∃ ss rest, (StartDebugger fl).2 ++ rest = fullTrace fl ss) ∧
    ((StartDebugger fl).1 = Except.ok () →
      ∃ ss, (StartDebugger fl).2 = fullTrace fl ss) := by
  rcases hra : resolveAuth fl with e | ss
  · constructor
    · exact ⟨AuthStrategy.gce,
        [Effect.enableAuth AuthStrategy.gce, Effect.initDebuggeeLabels fl,
         Effect.start],
        by simp [StartDebugger, hra, fullTrace]⟩
    · intro hok
      simp [StartDebugger, hra] at hok
  · constructor
    · exact ⟨ss, [], by simp [StartDebugger, hra, fullTrace]⟩
    · intro _
      exact ⟨ss, by simp [StartDebugger, hra, fullTrace]⟩

/-- C7 witness: with the empty configuration the run succeeds and its
trace is exactly the full ordered trace. -/
theorem C7_witnessInstance :
    (∃ ss rest, (StartDebugger []).2 ++ rest = fullTrace [] ss) ∧
    (∃ ss, (StartDebugger []).2 = fullTrace [] ss) :=
  ⟨(C7_strictEffectOrder []).1, (C7_strictEffectOrder []).2 (by decide)⟩

/-- C8: the hand-off resets the top-level namespace so that it holds
exactly the fresh minimal identity: program name bound to the main
sentinel, file identity bound to the target path, the builtin
bindings preserved, every other (orchestrator) binding erased; and
the target is executed with the one resulting dict as both the global
and the local scope. -/
theorem C8_namespaceReset (d : MainDict) (p : String) (k : String)
    (h1 : k ≠ "__name__") (h2 : k ≠ "__file__") (h3 : k ≠ "__builtins__") :
    (Handoff d p).globalsNs = (Handoff d p).localsNs ∧
    (Handoff d p).globalsNs = resetMainDict d p ∧
    (Handoff d p).target = p ∧
    dictGet (resetMainDict d p) "__name__" = some (PyObj.strVal "__main__") ∧
    dictGet (resetMainDict d p) "__file__" = some (PyObj.strVal p) ∧
    dictGet (resetMainDict d p) "__builtins__" = some PyObj.builtinsObj ∧
    dictGet (resetMainDict d p) k = none := by
  have hre : resetMainDict d p =
      [("__name__", PyObj.strVal "__main__"),
       ("__file__", PyObj.strVal p),
       ("__builtins__", PyObj.builtinsObj)] := rfl
  refine ⟨rfl, rfl, rfl, ?_, ?_, ?_, ?_⟩
  · rw [hre]; rfl
  · rw [hre]; rfl
  · rw [hre]; rfl
  · rw [hre]
    simp [dictGet, Ne.symm h1, Ne.symm h2, Ne.symm h3]

/-- C8 witness: resetting a namespace that holds orchestrator
top-level bindings for the target app.py erases the binding named
_flags and leaves exactly the three identity bindings, used as both
scopes. -/
theorem C8_witnessInstance :
    (Handoff initialMainDict "app.py").globalsNs =
      (Handoff initialMainDict "app.py").localsNs ∧
    (Handoff initialMainDict "app.py").globalsNs =
      resetMainDict initialMainDict "app.py" ∧
    (Handoff initialMainDict "app.py").target = "app.py" ∧
    dictGet (resetMainDict initialMainDict "app.py") "__name__" =
      some (PyObj.strVal "__main__") ∧
    dictGet (resetMainDict initialMainDict "app.py") "__file__" =
      some (PyObj.strVal "app.py") ∧
    dictGet (resetMainDict initialMainDict "app.py") "__builtins__" =
      some PyObj.builtinsObj ∧
    dictGet (resetMainDict initialMainDict "app.py") "_flags" = none :=
  C8_namespaceReset initialMainDict "app.py" "_flags"
    (by decide) (by decide) (by decide)

/-- C9: an empty token before any separator ends the flag loop
without being consumed and without MalformedFlag, and the hand-off
then takes that empty string as the target program path. -/
theorem C9_emptyTokenBecomesTarget (t0 : String) (pre post : List String)
    (s : ProcState)
    (h : ∀ t ∈ pre, t ≠ "" ∧ t ≠ "--" ∧
      (pySplitLim (pyStrip t '-') '=' 2).length = 2)
    (hok : (StartDebugger (consumeFlags [] pre)).1 = Except.ok ()) :
    parseArgv (t0 :: pre ++ "" :: post) =
      Except.ok (consumeFlags [] pre, "" :: post) ∧
    (DebuggerMain (t0 :: pre ++ "" :: post) s).1 =
      Except.ok (Handoff s.mainDict "") := by
  have hp : parseFlags (pre ++ "" :: post) [] =
      (Except.ok ("" :: post), consumeFlags [] pre) := by
    rw [parseFlags_consume_append pre ("" :: post) [] h]
    rfl
  constructor
  · simp [parseArgv, hp]
  · rcases hSD : StartDebugger (consumeFlags [] pre) with ⟨r, tr⟩
    rw [hSD] at hok
    simp only at hok
    subst hok
    simp [DebuggerMain, hp, hSD]

/-- C9 witness: the stream cdbg, a well-formed flag, an empty token,
then x parses to the flag alone with the empty token at the head of
the remainder, and the hand-off target is the empty string. -/
theorem C9_witnessInstance :
    parseArgv ["cdbg", "--a=1", "", "x"] =
      Except.ok (consumeFlags [] ["--a=1"], ["", "x"]) ∧
    (DebuggerMain ["cdbg", "--a=1", "", "x"] initialState).1 =
      Except.ok (Handoff initialState.mainDict "") :=
  C9_emptyTokenBecomesTarget "cdbg" ["--a=1"] ["x"] initialState
    (by decide) (by decide)

/-- C10: AttachDebugger stores the keyword mapping into _flags before
calling _StartDebugger, so when the startup raises partway the error
propagates, the configuration is nevertheless recorded, and every
subsequent AttachDebugger call fails with AlreadyAttached. -/
theorem C10_flagsRecordedBeforeStart (kwargs kwargs2 : Config)
    (s : ProcState) (e : PyError) (h0 : s.flags = none)
    (hfail : (StartDebugger kwargs).1 = Except.error e) :
    (AttachDebugger kwargs s).1 = Except.error e ∧
    (AttachDebugger kwargs s).2.flags = some kwargs ∧
    AttachDebugger kwargs2 (AttachDebugger kwargs s).2 =
      (Except.error PyError.alreadyAttached, (AttachDebugger kwargs s).2) := by
  rcases s with ⟨fl, tr, md⟩
  simp only at h0
  subst h0
  rcases hSD : StartDebugger kwargs with ⟨r, tr2⟩
  rw [hSD] at hfail
  simp only at hfail
  subst hfail
  refine ⟨?_, ?_, ?_⟩ <;> simp [AttachDebugger, hSD]

/-- C10 witness: a truthy service-account flag without project_id
makes the startup raise KeyError partway; the configuration is still
recorded and a second programmatic attach fails with AlreadyAttached. -/
theorem C10_witnessInstance :
    (AttachDebugger saIncompleteFlags initialState).1 =
      Except.error (PyError.keyError "project_id") ∧
    (AttachDebugger saIncompleteFlags initialState).2.flags =
      some saIncompleteFlags ∧
    AttachDebugger [] (AttachDebugger saIncompleteFlags initialState).2 =
      (Except.error PyError.alreadyAttached,
       (AttachDebugger saIncompleteFlags initialState).2) :=
  C10_flagsRecordedBeforeStart saIncompleteFlags [] initialState
    (PyError.keyError "project_id") (by decide) (by decide)

end CloudDebugger
